import Mathlib

/-!
A shallow embedding of the remote data gateway (src/lib/appwrite/api.ts),
the like-toggle handler (src/components/shared/PostStats.tsx), the
tag-normalization expressions, and the cache-invalidation glue
(src/lib/react-query/queriesAndMutations.ts) of the snapgram repository.

Conventions of the embedding:
* Every remote SDK call site is assigned an `Outcome` in an `Env`: the call
  can resolve with a value (`ok`), resolve with a falsy value (`nullish`),
  or reject (`thrown`).
* An async gateway function becomes
  `Env → Except Unit (Option α) × List RemoteCall`, where `Except.error ()`
  is a rejected promise (an uncaught throw propagating to the caller),
  `Except.ok none` a promise resolved with a falsy value (undefined), and
  `Except.ok (some v)` a promise resolved with `v`.  The list records, in
  order, the remote calls the run issued.
* JS strings are `String`; where character-level JS operations matter
  (tag normalization) strings are embedded structurally as `List Char`,
  because the JS string methods involved are character-by-character.
-/

/-- How one remote SDK call turns out: resolve with a value, resolve with a
falsy value, or reject. -/
inductive Outcome (α : Type) where
  | ok (a : α)
  | nullish
  | thrown
  deriving DecidableEq, Repr

/-- A backend document; only the id field (the $id of the platform) is
relevant to the control flow being verified. -/
structure Document where
  id : String
  deriving DecidableEq, Repr

/-- A listDocuments result page: an object holding a documents array. -/
structure PageDoc where
  documents : List Document
  deriving DecidableEq, Repr

/-- The literal success object several operations return. -/
inductive Status where
  | ok
  deriving DecidableEq, Repr

/-- Queries issued against the user collection. -/
inductive UserQuery where
  | orderDescCreatedAt
  | equalAccountId (accountId : String)
  | limit (n : Nat)
  deriving DecidableEq, Repr

/-- Queries issued against the post collection. -/
inductive PostQuery where
  | orderDescCreatedAt
  | orderDescUpdatedAt
  | limit (n : Nat)
  | cursorAfter (id : String)
  | searchCaption (term : String)
  deriving DecidableEq, Repr

/-- One remote call, as recorded in a run trace.  `accountDelete` is the
rollback call no gateway operation ever issues; it is included so that the
absence of compensation is expressible. -/
inductive RemoteCall where
  | accountCreate
  | accountDelete
  | sessionCreate
  | accountGet
  | sessionDelete
  | userDocCreate
  | userDocsList (queries : List UserQuery)
  | postDocCreate (tags : List (List Char))
  | postDocUpdate (postId : String) (tags : List (List Char))
  | postDocUpdateLikes (postId : String) (likes : List String)
  | postDocDelete (postId : String)
  | postDocsList (queries : List PostQuery)
  | postDocGet (postId : String)
  | saveDocCreate (postId userId : String)
  | saveDocDelete (recordId : String)
  | fileCreate
  | fileDelete (fileId : String)
  deriving DecidableEq, Repr

/-- The outcome each remote call site of the backend would produce in a run. -/
structure Env where
  accountCreate : Outcome Document
  sessionCreate : Outcome Document
  accountGet : Outcome Document
  sessionDelete : Outcome Document
  userDocCreate : Outcome Document
  userDocsList : Outcome (List Document)
  postDocCreate : Outcome Document
  postDocUpdate : Outcome Document
  postDocDelete : Outcome Unit
  postDocsList : Outcome (List Document)
  postDocGet : Outcome Document
  saveDocCreate : Outcome Document
  saveDocDelete : Outcome Unit
  fileCreate : Outcome Document
  filePreview : Outcome String
  fileDelete : Outcome Unit
  deriving Repr

/-- The JS call replace with a global single-space pattern and empty
replacement: removes every space character. -/
def removeSpaces (s : List Char) : List Char :=
  s.filter (fun c => c ≠ ' ')

/-- JS String.prototype.split with separator comma: splitting the empty
string yields a singleton list holding the empty string, and every comma
starts a new (possibly empty) segment. -/
def splitOnComma : List Char → List (List Char)
  | [] => [[]]
  | c :: cs =>
      if c = ',' then [] :: splitOnComma cs
      else
        match splitOnComma cs with
        | [] => [[c]]
        | t :: ts => (c :: t) :: ts

/-- The tag-normalization expression of createPost and updatePost
(api.ts lines 227 and 518): remove all spaces, then split on commas; since
split always returns an array (truthy in JS), the alternative empty array is
taken exactly when the tags field is undefined. -/
def normalizeTags : Option (List Char) → List (List Char)
  | none => []
  | some s => splitOnComma (removeSpaces s)

/-- Written from the words of the spec, for comparison with `normalizeTags`:
normalize a comma-separated tag string into an ordered sequence of trimmed
tags, i.e. split on commas and strip leading and trailing spaces of each tag. -/
def specTrimmedTags (s : List Char) : List (List Char) :=
  (splitOnComma s).map
    (fun t => ((t.dropWhile (fun c => c = ' ')).reverse.dropWhile (fun c => c = ' ')).reverse)

/-- The createPost input (INewPost); the file field models the FileList. -/
structure INewPost where
  userId : String
  caption : String
  file : List String
  location : String
  tags : Option (List Char)

/-- The updatePost input (IUpdatePost). -/
structure IUpdatePost where
  postId : String
  caption : String
  imageId : String
  imageUrl : String
  file : List String
  location : String
  tags : Option (List Char)

/-- saveUserToDB: one createDocument on the user collection, returning its
value; a throw is caught and logged, yielding undefined. -/
def saveUserToDB (env : Env) : Except Unit (Option Document) × List RemoteCall :=
  match env.userDocCreate with
  | .ok d => (.ok (some d), [.userDocCreate])
  | .nullish => (.ok none, [.userDocCreate])
  | .thrown => (.ok none, [.userDocCreate])

/-- The value createUserAccount resolves with: either the value returned by
saveUserToDB (possibly undefined), or — via the catch block, which ends in
return error — the caught error object itself. -/
inductive CreateUserResult where
  | value (d : Option Document)
  | errObj
  deriving DecidableEq, Repr

/-- createUserAccount: account creation, then (on a truthy account) a single
saveUserToDB; the avatar URL is derived locally and issues no remote call.
Any throw is caught and the caught error object is returned. -/
def createUserAccount (env : Env) : Except Unit CreateUserResult × List RemoteCall :=
  match env.accountCreate with
  | .ok _ =>
      match saveUserToDB env with
      | (.ok v, calls) => (.ok (.value v), .accountCreate :: calls)
      | (.error _, calls) => (.ok .errObj, .accountCreate :: calls)
  | .nullish => (.ok .errObj, [.accountCreate])
  | .thrown => (.ok .errObj, [.accountCreate])

/-- signInAccount: one createEmailPasswordSession; throws are swallowed. -/
def signInAccount (env : Env) : Except Unit (Option Document) × List RemoteCall :=
  match env.sessionCreate with
  | .ok s => (.ok (some s), [.sessionCreate])
  | .nullish => (.ok none, [.sessionCreate])
  | .thrown => (.ok none, [.sessionCreate])

/-- getAccount: one account.get; throws are swallowed. -/
def getAccount (env : Env) : Except Unit (Option Document) × List RemoteCall :=
  match env.accountGet with
  | .ok a => (.ok (some a), [.accountGet])
  | .nullish => (.ok none, [.accountGet])
  | .thrown => (.ok none, [.accountGet])

/-- getCurrentUser: getAccount, then a listDocuments on the user collection
filtered by the account id, returning the first document (undefined when the
page is empty); throws are swallowed. -/
def getCurrentUser (env : Env) : Except Unit (Option Document) × List RemoteCall :=
  match env.accountGet with
  | .nullish => (.ok none, [.accountGet])
  | .thrown => (.ok none, [.accountGet])
  | .ok acc =>
      match env.userDocsList with
      | .ok docs => (.ok docs.head?, [.accountGet, .userDocsList [.equalAccountId acc.id]])
      | .nullish => (.ok none, [.accountGet, .userDocsList [.equalAccountId acc.id]])
      | .thrown => (.ok none, [.accountGet, .userDocsList [.equalAccountId acc.id]])

/-- The query list getUsers builds: the descending creation-time ordering
always comes first, and a limit clause is pushed only when the limit
parameter is truthy (defined and nonzero). -/
def getUsersQueries (limit : Option Nat) : List UserQuery :=
  [.orderDescCreatedAt] ++
    (match limit with
     | some n => if n ≠ 0 then [.limit n] else []
     | none => [])

/-- getUsers: one listDocuments on the user collection with the built query
list; throws are swallowed, and the resolved value is returned unchecked. -/
def getUsers (env : Env) (limit : Option Nat) : Except Unit (Option PageDoc) × List RemoteCall :=
  match env.userDocsList with
  | .ok docs => (.ok (some ⟨docs⟩), [.userDocsList (getUsersQueries limit)])
  | .nullish => (.ok none, [.userDocsList (getUsersQueries limit)])
  | .thrown => (.ok none, [.userDocsList (getUsersQueries limit)])

/-- signOutAccount: one deleteSession; throws are swallowed. -/
def signOutAccount (env : Env) : Except Unit (Option Document) × List RemoteCall :=
  match env.sessionDelete with
  | .ok s => (.ok (some s), [.sessionDelete])
  | .nullish => (.ok none, [.sessionDelete])
  | .thrown => (.ok none, [.sessionDelete])

/-- uploadFile: one storage.createFile; throws are swallowed. -/
def uploadFile (env : Env) : Except Unit (Option Document) × List RemoteCall :=
  match env.fileCreate with
  | .ok f => (.ok (some f), [.fileCreate])
  | .nullish => (.ok none, [.fileCreate])
  | .thrown => (.ok none, [.fileCreate])

/-- getFilePreview builds a preview URL client side — it issues no remote
call; a throw is caught and yields undefined. -/
def getFilePreview (env : Env) (_fileId : String) : Option String :=
  match env.filePreview with
  | .ok url => some url
  | .nullish => none
  | .thrown => none

/-- deleteFile: one storage.deleteFile whose resolved value is not inspected;
on resolution the literal ok status is returned, a throw is swallowed. -/
def deleteFile (env : Env) (fileId : String) : Except Unit (Option Status) × List RemoteCall :=
  match env.fileDelete with
  | .ok _ => (.ok (some .ok), [.fileDelete fileId])
  | .nullish => (.ok (some .ok), [.fileDelete fileId])
  | .thrown => (.ok none, [.fileDelete fileId])

/-- createPost: upload the file; on a truthy upload derive the preview URL
(deleting the upload if that is falsy); then one createDocument carrying the
normalized tags.  A falsy createDocument result triggers deleteFile on the
uploaded file; a createDocument throw falls to the catch block, which only
logs — no deleteFile is issued on that path. -/
def createPost (env : Env) (post : INewPost) : Except Unit (Option Document) × List RemoteCall :=
  match uploadFile env with
  | (.ok (some f), upCalls) =>
      match getFilePreview env f.id with
      | none =>
          let del := deleteFile env f.id
          (.ok none, upCalls ++ del.2)
      | some _ =>
          let tags := normalizeTags post.tags
          match env.postDocCreate with
          | .ok doc => (.ok (some doc), upCalls ++ [.postDocCreate tags])
          | .nullish =>
              let del := deleteFile env f.id
              (.ok none, upCalls ++ [.postDocCreate tags] ++ del.2)
          | .thrown => (.ok none, upCalls ++ [.postDocCreate tags])
  | (_, upCalls) => (.ok none, upCalls)

/-- getRecentPosts has no try/catch: a rejected listDocuments, or a falsy
result (then an explicit throw), rejects the returned promise. -/
def getRecentPosts (env : Env) : Except Unit (Option PageDoc) × List RemoteCall :=
  match env.postDocsList with
  | .ok docs => (.ok (some ⟨docs⟩), [.postDocsList [.orderDescCreatedAt, .limit 20]])
  | .nullish => (.error (), [.postDocsList [.orderDescCreatedAt, .limit 20]])
  | .thrown => (.error (), [.postDocsList [.orderDescCreatedAt, .limit 20]])

/-- likePost: one updateDocument replacing the likes array; throws are
swallowed, a falsy result becomes undefined. -/
def likePost (env : Env) (postId : String) (likesArray : List String) :
    Except Unit (Option Document) × List RemoteCall :=
  match env.postDocUpdate with
  | .ok doc => (.ok (some doc), [.postDocUpdateLikes postId likesArray])
  | .nullish => (.ok none, [.postDocUpdateLikes postId likesArray])
  | .thrown => (.ok none, [.postDocUpdateLikes postId likesArray])

/-- savePost: one createDocument on the save collection; throws are
swallowed, a falsy result becomes undefined. -/
def savePost (env : Env) (postId userId : String) :
    Except Unit (Option Document) × List RemoteCall :=
  match env.saveDocCreate with
  | .ok doc => (.ok (some doc), [.saveDocCreate postId userId])
  | .nullish => (.ok none, [.saveDocCreate postId userId])
  | .thrown => (.ok none, [.saveDocCreate postId userId])

/-- deleteSavedPost: one deleteDocument on the save collection; a truthy
result becomes the ok status, a falsy one (or a throw) undefined. -/
def deleteSavedPost (env : Env) (savedRecordId : String) :
    Except Unit (Option Status) × List RemoteCall :=
  match env.saveDocDelete with
  | .ok _ => (.ok (some .ok), [.saveDocDelete savedRecordId])
  | .nullish => (.ok none, [.saveDocDelete savedRecordId])
  | .thrown => (.ok none, [.saveDocDelete savedRecordId])

/-- getPostById: one getDocument; throws are swallowed. -/
def getPostById (env : Env) (postId : String) :
    Except Unit (Option Document) × List RemoteCall :=
  match env.postDocGet with
  | .ok doc => (.ok (some doc), [.postDocGet postId])
  | .nullish => (.ok none, [.postDocGet postId])
  | .thrown => (.ok none, [.postDocGet postId])

/-- updatePost: when a new file is supplied, upload it and derive its preview
(deleting the new upload if the preview is falsy); then one updateDocument.
A falsy update result triggers deleteFile on the PRE-EXISTING image id taken
from the input (post.imageId), not on the newly uploaded file; an update
throw falls to the catch block, which only logs. -/
def updatePost (env : Env) (post : IUpdatePost) :
    Except Unit (Option Document) × List RemoteCall :=
  let tags := normalizeTags post.tags
  if post.file.length > 0 then
    match uploadFile env with
    | (.ok (some f), upCalls) =>
        match getFilePreview env f.id with
        | none =>
            let del := deleteFile env f.id
            (.ok none, upCalls ++ del.2)
        | some _ =>
            match env.postDocUpdate with
            | .ok doc => (.ok (some doc), upCalls ++ [.postDocUpdate post.postId tags])
            | .nullish =>
                let del := deleteFile env post.imageId
                (.ok none, upCalls ++ [.postDocUpdate post.postId tags] ++ del.2)
            | .thrown => (.ok none, upCalls ++ [.postDocUpdate post.postId tags])
    | (_, upCalls) => (.ok none, upCalls)
  else
    match env.postDocUpdate with
    | .ok doc => (.ok (some doc), [.postDocUpdate post.postId tags])
    | .nullish =>
        let del := deleteFile env post.imageId
        (.ok none, [.postDocUpdate post.postId tags] ++ del.2)
    | .thrown => (.ok none, [.postDocUpdate post.postId tags])

/-- deletePost: the guard on the two identifiers sits before the try block,
so a missing (empty, hence falsy) identifier rejects the promise with no
remote call issued; otherwise deleteDocument runs and, on a truthy result,
deleteFile on the image follows. -/
def deletePost (env : Env) (postId imageId : String) :
    Except Unit (Option Status) × List RemoteCall :=
  if postId = "" ∨ imageId = "" then (.error (), [])
  else
    match env.postDocDelete with
    | .ok _ =>
        let del := deleteFile env imageId
        (.ok (some .ok), .postDocDelete postId :: del.2)
    | .nullish => (.ok none, [.postDocDelete postId])
    | .thrown => (.ok none, [.postDocDelete postId])

/-- The query list getInfinitePosts builds; the cursor is appended only when
the page parameter is truthy (the initial value 0 is falsy, modelled as
none; an empty id is falsy too). -/
def getInfinitePostsQueries (pageParam : Option String) : List PostQuery :=
  [.orderDescUpdatedAt, .limit 10] ++
    (match pageParam with
     | some id => if id ≠ "" then [.cursorAfter id] else []
     | none => [])

/-- getInfinitePosts: one listDocuments on the post collection with the built
query list; throws are swallowed. -/
def getInfinitePosts (env : Env) (pageParam : Option String) :
    Except Unit (Option PageDoc) × List RemoteCall :=
  match env.postDocsList with
  | .ok docs => (.ok (some ⟨docs⟩), [.postDocsList (getInfinitePostsQueries pageParam)])
  | .nullish => (.ok none, [.postDocsList (getInfinitePostsQueries pageParam)])
  | .thrown => (.ok none, [.postDocsList (getInfinitePostsQueries pageParam)])

/-- searchPosts: one listDocuments with a full-text caption search; throws
are swallowed. -/
def searchPosts (env : Env) (searchTerm : String) :
    Except Unit (Option PageDoc) × List RemoteCall :=
  match env.postDocsList with
  | .ok docs => (.ok (some ⟨docs⟩), [.postDocsList [.searchCaption searchTerm]])
  | .nullish => (.ok none, [.postDocsList [.searchCaption searchTerm]])
  | .thrown => (.ok none, [.postDocsList [.searchCaption searchTerm]])

/-- The getNextPageParam computation of useGetPosts: null when the last page
is absent or its documents array has length zero, otherwise the id of the
document at the final index. -/
def getNextPageParam : Option PageDoc → Option String
  | none => none
  | some page =>
      if h : page.documents.length = 0 then none
      else some ((page.documents.get ⟨page.documents.length - 1, by omega⟩).id)

/-- checkIsLiked (lib/utils): membership of the user id in the likes array. -/
def checkIsLiked (likes : List String) (userId : String) : Bool :=
  likes.contains userId

/-- handleLikePost in PostStats: if the user id is in the likes array remove
every occurrence of it, otherwise append it. -/
def toggleLike (likes : List String) (userId : String) : List String :=
  if likes.contains userId then likes.filter (fun id => id ≠ userId)
  else likes ++ [userId]

/-- A sequence of like-toggles, each step performed with the user id at that
position. -/
def applyToggles (likes : List String) (toggles : List String) : List String :=
  toggles.foldl toggleLike likes

/-- Cache query keys declared in queriesAndMutations.ts.  `getPostById none`
stands for the two-element key whose id part is undefined; `getPostByIdAll`
for the bare one-element key used by useUpdatePost. -/
inductive QueryKey where
  | getRecentPosts
  | getPosts
  | getCurrentUser
  | getPostById (id : Option String)
  | getPostByIdAll
  deriving DecidableEq, Repr

/-- Modelled from the spec: the cache layer (the data-fetching library the
repository delegates to, out of src) wraps each gateway mutation and, on
mutation success, invalidates the declared set of query keys; a mutation
counts as successful exactly when the mutation function resolves rather than
rejects.  The returned list is the set of keys invalidated by the run. -/
def runMutation {α : Type} (result : Except Unit α) (onSuccess : α → List QueryKey) :
    List QueryKey :=
  match result with
  | .ok a => onSuccess a
  | .error _ => []

/-- The keys useLikePost invalidates on success; the first key embeds the id
of the resolved value, which is undefined when the mutation resolved falsy. -/
def useLikePostKeys (data : Option Document) : List QueryKey :=
  [.getPostById (data.map Document.id), .getRecentPosts, .getPosts, .getCurrentUser]

/-- The keys useSavePost invalidates on success. -/
def useSavePostKeys : List QueryKey :=
  [.getRecentPosts, .getPosts, .getCurrentUser]

/-- The keys useDeleteSavedPost invalidates on success. -/
def useDeleteSavedPostKeys : List QueryKey :=
  [.getRecentPosts, .getPosts, .getCurrentUser]

/-- The keys useCreatePost invalidates on success. -/
def useCreatePostKeys : List QueryKey :=
  [.getRecentPosts]

/-- The keys useUpdatePost invalidates on success. -/
def useUpdatePostKeys : List QueryKey :=
  [.getRecentPosts, .getPostByIdAll]

/-- One run of the useLikePost mutation: the gateway call, then the declared
invalidations when the promise resolved. -/
def useLikePostRun (env : Env) (postId : String) (likesArray : List String) :
    List QueryKey :=
  runMutation (likePost env postId likesArray).1 useLikePostKeys

/-- One run of the useSavePost mutation. -/
def useSavePostRun (env : Env) (postId userId : String) : List QueryKey :=
  runMutation (savePost env postId userId).1 (fun _ => useSavePostKeys)

/-- One run of the useDeleteSavedPost mutation. -/
def useDeleteSavedPostRun (env : Env) (savedRecordId : String) : List QueryKey :=
  runMutation (deleteSavedPost env savedRecordId).1 (fun _ => useDeleteSavedPostKeys)

/-- One run of the useCreatePost mutation. -/
def useCreatePostRun (env : Env) (post : INewPost) : List QueryKey :=
  runMutation (createPost env post).1 (fun _ => useCreatePostKeys)

/-- One run of the useUpdatePost mutation. -/
def useUpdatePostRun (env : Env) (post : IUpdatePost) : List QueryKey :=
  runMutation (updatePost env post).1 (fun _ => useUpdatePostKeys)

/-- An environment in which every remote call rejects. -/
def envAllThrown : Env where
  accountCreate := .thrown
  sessionCreate := .thrown
  accountGet := .thrown
  sessionDelete := .thrown
  userDocCreate := .thrown
  userDocsList := .thrown
  postDocCreate := .thrown
  postDocUpdate := .thrown
  postDocDelete := .thrown
  postDocsList := .thrown
  postDocGet := .thrown
  saveDocCreate := .thrown
  saveDocDelete := .thrown
  fileCreate := .thrown
  filePreview := .thrown
  fileDelete := .thrown

/-- A concrete createPost input. -/
def samplePost : INewPost where
  userId := "u1"
  caption := "hello"
  file := ["f"]
  location := "loc"
  tags := some "a,b".data

/-- A concrete updatePost input with a replacement file supplied. -/
def sampleUpdate : IUpdatePost where
  postId := "p1"
  caption := "c"
  imageId := "oldimg"
  imageUrl := "u"
  file := ["f"]
  location := "l"
  tags := none

/-- Upload and preview succeed, the post write rejects, everything else
rejects too. -/
def envDocThrows : Env :=
  { envAllThrown with fileCreate := .ok ⟨"file1"⟩, filePreview := .ok "url" }

/-- Upload and preview succeed, the post write resolves falsy. -/
def envDocNullish : Env :=
  { envAllThrown with
      fileCreate := .ok ⟨"file1"⟩, filePreview := .ok "url", postDocCreate := .nullish }

/-- Account creation succeeds, everything downstream rejects. -/
def envAccountOk : Env :=
  { envAllThrown with accountCreate := .ok ⟨"acc1"⟩ }

/-- Document deletion succeeds (the file deletion still rejects, which
deleteFile swallows). -/
def envDeleteOk : Env :=
  { envAllThrown with postDocDelete := .ok () }

/-- New upload and preview succeed, the post update resolves falsy. -/
def envUpdateNullish : Env :=
  { envAllThrown with
      fileCreate := .ok ⟨"newfile"⟩, filePreview := .ok "url", postDocUpdate := .nullish }

theorem splitOnComma_ne_nil (s : List Char) : splitOnComma s ≠ [] := by
  induction s with
  | nil => simp [splitOnComma]
  | cons c cs ih =>
      simp only [splitOnComma]
      split
      · simp
      · cases h : splitOnComma cs with
        | nil => exact absurd h ih
        | cons t ts => simp

theorem toggleLike_nodup {likes : List String} (u : String) (h : likes.Nodup) :
    (toggleLike likes u).Nodup := by
  unfold toggleLike
  split
  · exact h.filter _
  · next hc =>
      have hu : u ∉ likes := by simpa using hc
      simp [List.nodup_append, h, hu]

theorem applyToggles_nodup (toggles : List String) :
    ∀ likes : List String, likes.Nodup → (applyToggles likes toggles).Nodup := by
  induction toggles with
  | nil => exact fun _ h => h
  | cons t ts ih => exact fun likes h => ih _ (toggleLike_nodup t h)

/-- C1: createPost cleanup, evaluated at its two database-write failure
modes after a successful upload.  When the write resolves falsy the uploaded
file is deleted exactly once; but when the write rejects, control reaches
the catch block, which only logs — no deleteFile is issued, and the uploaded
file is leaked, contrary to the claim and to the comment documenting
createPost in the source. -/
theorem createPost_db_failure_cleanup :
    (createPost envDocNullish samplePost).2.count (.fileDelete "file1") = 1 ∧
    (createPost envDocThrows samplePost).1 = .ok none ∧
    (createPost envDocThrows samplePost).2 =
      [.fileCreate, .postDocCreate [['a'], ['b']]] ∧
    (createPost envDocThrows samplePost).2.count (.fileDelete "file1") = 0 := by
  refine ⟨?_, rfl, rfl, ?_⟩ <;> decide

/-- C2 counterexample: getRecentPosts has no catch; when its remote call
rejects, the returned promise rejects instead of resolving with an absent
value, so the uniform no-propagating-error contract is violated. -/
theorem getRecentPosts_propagates :
    (getRecentPosts envAllThrown).1 = .error () := rfl

/-- C2 (amended): when an underlying remote call rejects, no gateway
operation except getRecentPosts propagates the failure — every other
operation resolves, at every one of its remote-call failure sites.  The
resolved value is an absent (undefined) value at each such site, with two
exceptions forced by the code: createUserAccount resolves with the caught
error object itself when the account-creation call rejects (and with an
absent value when the subsequent user-record write rejects), and deletePost
resolves with its success status when only the trailing image deletion
rejects, because deleteFile swallows that failure internally; getRecentPosts
has no catch and rejects. -/
theorem gateway_remote_failures_swallowed (env : Env)
    (postId userId recordId term fileId imageId : String) (arr : List String)
    (np : INewPost) (up : IUpdatePost) (lim : Option Nat) (pageParam : Option String)
    (acc f : Document) (url : String) :
    (env.userDocCreate = .thrown → (saveUserToDB env).1 = .ok none) ∧
    (env.accountCreate = .thrown → (createUserAccount env).1 = .ok .errObj) ∧
    (env.accountCreate = .ok acc → env.userDocCreate = .thrown →
      (createUserAccount env).1 = .ok (.value none)) ∧
    (env.sessionCreate = .thrown → (signInAccount env).1 = .ok none) ∧
    (env.accountGet = .thrown → (getAccount env).1 = .ok none) ∧
    (env.accountGet = .thrown → (getCurrentUser env).1 = .ok none) ∧
    (env.accountGet = .ok acc → env.userDocsList = .thrown →
      (getCurrentUser env).1 = .ok none) ∧
    (env.userDocsList = .thrown → (getUsers env lim).1 = .ok none) ∧
    (env.sessionDelete = .thrown → (signOutAccount env).1 = .ok none) ∧
    (env.fileCreate = .thrown → (uploadFile env).1 = .ok none) ∧
    (env.fileDelete = .thrown → (deleteFile env fileId).1 = .ok none) ∧
    (env.fileCreate = .thrown → (createPost env np).1 = .ok none) ∧
    (env.fileCreate = .ok f → env.filePreview = .thrown →
      (createPost env np).1 = .ok none) ∧
    (env.fileCreate = .ok f → env.filePreview = .ok url →
      env.postDocCreate = .thrown → (createPost env np).1 = .ok none) ∧
    (env.fileCreate = .ok f → env.filePreview = .ok url →
      env.postDocCreate = .nullish → env.fileDelete = .thrown →
      (createPost env np).1 = .ok none) ∧
    (env.fileCreate = .thrown → env.postDocUpdate = .thrown →
      (updatePost env up).1 = .ok none) ∧
    (up.file.length > 0 → env.fileCreate = .ok f → env.filePreview = .thrown →
      (updatePost env up).1 = .ok none) ∧
    (up.file.length > 0 → env.fileCreate = .ok f → env.filePreview = .ok url →
      env.postDocUpdate = .thrown → (updatePost env up).1 = .ok none) ∧
    (up.file.length > 0 → env.fileCreate = .ok f → env.filePreview = .ok url →
      env.postDocUpdate = .nullish → env.fileDelete = .thrown →
      (updatePost env up).1 = .ok none) ∧
    (up.file.length = 0 → env.postDocUpdate = .thrown →
      (updatePost env up).1 = .ok none) ∧
    (up.file.length = 0 → env.postDocUpdate = .nullish → env.fileDelete = .thrown →
      (updatePost env up).1 = .ok none) ∧
    (env.postDocUpdate = .thrown → (likePost env postId arr).1 = .ok none) ∧
    (env.saveDocCreate = .thrown → (savePost env postId userId).1 = .ok none) ∧
    (env.saveDocDelete = .thrown → (deleteSavedPost env recordId).1 = .ok none) ∧
    (env.postDocGet = .thrown → (getPostById env postId).1 = .ok none) ∧
    (postId ≠ "" → imageId ≠ "" → env.postDocDelete = .thrown →
      (deletePost env postId imageId).1 = .ok none) ∧
    (postId ≠ "" → imageId ≠ "" → env.postDocDelete = .nullish →
      (deletePost env postId imageId).1 = .ok none) ∧
    (postId ≠ "" → imageId ≠ "" → env.postDocDelete = .ok () →
      env.fileDelete = .thrown →
      (deletePost env postId imageId).1 = .ok (some .ok)) ∧
    (env.postDocsList = .thrown → (getInfinitePosts env pageParam).1 = .ok none) ∧
    (env.postDocsList = .thrown → (searchPosts env term).1 = .ok none) ∧
    (env.postDocsList = .thrown → (getRecentPosts env).1 = .error ()) := by
  refine ⟨?_, ?_, ?_, ?_, ?_, ?_, ?_, ?_, ?_, ?_, ?_, ?_, ?_, ?_, ?_, ?_, ?_, ?_,
    ?_, ?_, ?_, ?_, ?_, ?_, ?_, ?_, ?_, ?_, ?_, ?_, ?_⟩
  all_goals intros
  · simp_all [saveUserToDB]
  · simp_all [createUserAccount]
  · simp_all [createUserAccount, saveUserToDB]
  · simp_all [signInAccount]
  · simp_all [getAccount]
  · simp_all [getCurrentUser]
  · simp_all [getCurrentUser]
  · simp_all [getUsers]
  · simp_all [signOutAccount]
  · simp_all [uploadFile]
  · simp_all [deleteFile]
  · simp_all [createPost, uploadFile]
  · simp_all [createPost, uploadFile, getFilePreview]
  · simp_all [createPost, uploadFile, getFilePreview]
  · simp_all [createPost, uploadFile, getFilePreview, deleteFile]
  · unfold updatePost
    split
    · simp_all [uploadFile]
    · simp_all
  · simp_all [updatePost, uploadFile, getFilePreview]
  · simp_all [updatePost, uploadFile, getFilePreview]
  · simp_all [updatePost, uploadFile, getFilePreview, deleteFile]
  · simp_all [updatePost]
  · simp_all [updatePost, deleteFile]
  · simp_all [likePost]
  · simp_all [savePost]
  · simp_all [deleteSavedPost]
  · simp_all [getPostById]
  · simp_all [deletePost]
  · simp_all [deletePost]
  · simp_all [deletePost, deleteFile]
  · simp_all [getInfinitePosts]
  · simp_all [searchPosts]
  · simp_all [getRecentPosts]

/-- C2 witness: the amended propagation contract at concrete environments,
exercising a swallowed write failure, the error-object resolution, the
swallowed document deletion inside deletePost, and the propagating
getRecentPosts rejection. -/
theorem gateway_remote_failures_swallowed_witness :
    (saveUserToDB envAllThrown).1 = .ok none ∧
    (createUserAccount envAllThrown).1 = .ok .errObj ∧
    (deletePost envAllThrown "p1" "img").1 = .ok none ∧
    (getRecentPosts envAllThrown).1 = .error () := by
  have h := gateway_remote_failures_swallowed envAllThrown "p1" "u" "r" "t" "f" "img" []
    samplePost sampleUpdate none none ⟨"a"⟩ ⟨"f"⟩ "url"
  obtain ⟨h1, h2, -, -, -, -, -, -, -, -, -, -, -, -, -, -, -, -, -, -, -, -, -, -,
    -, h26, -, -, -, -, h31⟩ := h
  exact ⟨h1 rfl, h2 rfl, h26 (by decide) (by decide) rfl, h31 rfl⟩

/-- C3 counterexample: the empty tag string does not normalize to the empty
sequence but to a singleton holding the empty tag; and interior spaces are
removed outright rather than trimmed, so the output is not in general the
sequence of trimmed tags. -/
theorem normalizeTags_counterexample :
    normalizeTags (some "".data) = [[]] ∧
    ¬ normalizeTags (some "".data) = [] ∧
    normalizeTags (some "a b,c".data) = [['a', 'b'], ['c']] ∧
    specTrimmedTags "a b,c".data = [['a', ' ', 'b'], ['c']] ∧
    ¬ normalizeTags (some "a b,c".data) = specTrimmedTags "a b,c".data := by
  decide

/-- C3 (amended): the example input normalizes to the three claimed tags and
an absent tags field yields the empty sequence; but a present tag string
never normalizes to the empty sequence — the empty string yields a singleton
empty tag — and normalization removes every space instead of trimming, which
coincides with trimming exactly on inputs without interior spaces, such as
the example. -/
theorem normalizeTags_amended :
    normalizeTags (some "a, b ,c".data) = [['a'], ['b'], ['c']] ∧
    normalizeTags none = [] ∧
    normalizeTags (some "".data) = [[]] ∧
    normalizeTags (some "a, b ,c".data) = specTrimmedTags "a, b ,c".data ∧
    ∀ s, normalizeTags (some s) ≠ [] := by
  refine ⟨by decide, rfl, by decide, by decide, ?_⟩
  intro s
  simpa [normalizeTags] using splitOnComma_ne_nil (removeSpaces s)

/-- C4 counterexample: with duplicates already present in the initial likes
list, one toggle by a fresh user yields a like count of three while the
de-duplicated set of liker ids has two elements. -/
theorem applyToggles_counterexample :
    applyToggles ["a", "a"] ["b"] = ["a", "a", "b"] ∧
    ¬ (applyToggles ["a", "a"] ["b"]).length =
        (applyToggles ["a", "a"] ["b"]).toFinset.card := by
  decide

/-- C4 (amended): for every duplicate-free initial likes list and every
sequence of like-toggles, the resulting like count equals the cardinality of
the de-duplicated set of liker ids after the toggles. -/
theorem applyToggles_length_eq_card (likes : List String) (toggles : List String)
    (h : likes.Nodup) :
    (applyToggles likes toggles).length = (applyToggles likes toggles).toFinset.card :=
  (List.toFinset_card_of_nodup (applyToggles_nodup toggles likes h)).symm

/-- C4 witness: the amended count law at a concrete toggle sequence. -/
theorem applyToggles_length_eq_card_witness :
    (applyToggles ["x"] ["y", "y", "z"]).length =
      (applyToggles ["x"] ["y", "y", "z"]).toFinset.card :=
  applyToggles_length_eq_card ["x"] ["y", "y", "z"] (by decide)

theorem get_concat_last (l : List Document) (d : Document)
    (h : (l ++ [d]).length - 1 < (l ++ [d]).length) :
    (l ++ [d]).get ⟨(l ++ [d]).length - 1, h⟩ = d := by
  have hne : l ++ [d] ≠ [] := by simp
  rw [← List.getLast_eq_get (l ++ [d]) hne]
  exact List.getLast_append _

/-- C5: deletePost with a missing (empty) identifier rejects before issuing
any remote call — the trace is empty; with both identifiers present, the
post document deletion is issued first and, when it resolves truthy, the
stored image deletion follows. -/
theorem deletePost_requires_both_ids (env : Env) (postId imageId : String) :
    (postId = "" ∨ imageId = "" →
      deletePost env postId imageId = (.error (), [])) ∧
    (postId ≠ "" → imageId ≠ "" →
      ((deletePost env postId imageId).2.head? = some (.postDocDelete postId) ∧
        (env.postDocDelete = .ok () →
          (deletePost env postId imageId).1 = .ok (some .ok) ∧
          (deletePost env postId imageId).2 =
            [.postDocDelete postId, .fileDelete imageId]))) := by
  constructor
  · intro h
    rcases h with h | h <;> simp [deletePost, h]
  · intro h1 h2
    have hng : ¬ (postId = "" ∨ imageId = "") := by tauto
    constructor
    · unfold deletePost
      rw [if_neg hng]
      cases henv : env.postDocDelete <;> simp [deleteFile]
    · intro hok
      cases hfd : env.fileDelete <;>
        simp [deletePost, deleteFile, if_neg hng, hok, hfd]

/-- C5 witness: the precondition failure and the happy path, each at a
concrete input. -/
theorem deletePost_requires_both_ids_witness :
    deletePost envAllThrown "" "img" = (.error (), []) ∧
    (deletePost envDeleteOk "p1" "img").2 =
      [.postDocDelete "p1", .fileDelete "img"] := by
  have h1 := (deletePost_requires_both_ids envAllThrown "" "img").1 (Or.inl rfl)
  have h2 := ((deletePost_requires_both_ids envDeleteOk "p1" "img").2
    (by decide) (by decide)).2 rfl
  exact ⟨h1, h2.2⟩

/-- C6: the next-page computation yields the no-more-pages signal exactly
when the last fetched page is absent or has zero documents (on which the
infinite query stops instead of issuing a further call), and otherwise
yields the id of the last document of the page as the cursor. -/
theorem getNextPageParam_spec (lastPage : Option PageDoc) :
    (getNextPageParam lastPage = none ↔
      lastPage = none ∨ ∃ p, lastPage = some p ∧ p.documents = []) ∧
    (∀ p pre d, lastPage = some p → p.documents = pre ++ [d] →
      getNextPageParam lastPage = some d.id) := by
  constructor
  · cases lastPage with
    | none => simp [getNextPageParam]
    | some p =>
        simp only [getNextPageParam]
        split
        · next h => simp [List.length_eq_zero.mp h]
        · next h =>
            have hne : p.documents ≠ [] := fun hnil => h (by simp [hnil])
            simp [hne]
  · intro p pre d hp hdocs
    subst hp
    obtain ⟨docs⟩ := p
    have hd : docs = pre ++ [d] := hdocs
    subst hd
    simp only [getNextPageParam]
    split
    · next h => simp at h
    · next h => rw [get_concat_last]

/-- C6 witness: the cursor of a concrete two-document page. -/
theorem getNextPageParam_spec_witness :
    getNextPageParam (some ⟨[⟨"d1"⟩, ⟨"d2"⟩]⟩) = some "d2" :=
  (getNextPageParam_spec (some ⟨[⟨"d1"⟩, ⟨"d2"⟩]⟩)).2
    ⟨[⟨"d1"⟩, ⟨"d2"⟩]⟩ [⟨"d1"⟩] ⟨"d2"⟩ rfl rfl

/-- C7: after a successful remote account creation, exactly one user-record
write is issued, no account rollback call is ever issued, and the function
resolves — also when the user-record write fails, with no retry (the trace
holds a single write either way). -/
theorem createUserAccount_single_write (env : Env) (acc : Document)
    (h : env.accountCreate = .ok acc) :
    (createUserAccount env).2 = [.accountCreate, .userDocCreate] ∧
    (createUserAccount env).2.count .userDocCreate = 1 ∧
    (createUserAccount env).2.count .accountDelete = 0 ∧
    ∃ r, (createUserAccount env).1 = .ok r := by
  unfold createUserAccount saveUserToDB
  rw [h]
  cases hu : env.userDocCreate <;> exact ⟨rfl, rfl, rfl, _, rfl⟩

/-- C7 witness: the single-write contract at a concrete environment in which
the user-record write rejects. -/
theorem createUserAccount_single_write_witness :
    (createUserAccount envAccountOk).2 = [.accountCreate, .userDocCreate] ∧
    (createUserAccount envAccountOk).2.count .accountDelete = 0 := by
  have h := createUserAccount_single_write envAccountOk ⟨"acc1"⟩ rfl
  exact ⟨h.1, h.2.2.1⟩

/-- C8: when a new file was uploaded and the database update resolves falsy,
the cleanup deletes the pre-existing image of the post (post.imageId), not
the newly uploaded replacement: the new upload stays orphaned in storage
while the original image is deleted. -/
theorem updatePost_deletes_old_image (env : Env) (post : IUpdatePost)
    (f : Document) (url : String)
    (hfile : post.file.length > 0)
    (hup : env.fileCreate = .ok f)
    (hprev : env.filePreview = .ok url)
    (hdb : env.postDocUpdate = .nullish)
    (hne : f.id ≠ post.imageId) :
    (updatePost env post).2 =
      [.fileCreate, .postDocUpdate post.postId (normalizeTags post.tags),
        .fileDelete post.imageId] ∧
    RemoteCall.fileDelete post.imageId ∈ (updatePost env post).2 ∧
    RemoteCall.fileDelete f.id ∉ (updatePost env post).2 ∧
    (updatePost env post).1 = .ok none := by
  cases hfd : env.fileDelete <;>
    refine ⟨?_, ?_, ?_, ?_⟩ <;>
      simp [updatePost, uploadFile, getFilePreview, deleteFile,
        hup, hprev, hdb, hfile, hfd, hne]

/-- C8 witness: the asymmetric cleanup at a concrete run. -/
theorem updatePost_deletes_old_image_witness :
    RemoteCall.fileDelete "oldimg" ∈ (updatePost envUpdateNullish sampleUpdate).2 ∧
    RemoteCall.fileDelete "newfile" ∉ (updatePost envUpdateNullish sampleUpdate).2 := by
  have h := updatePost_deletes_old_image envUpdateNullish sampleUpdate
    ⟨"newfile"⟩ "url" (by decide) rfl rfl rfl (by decide)
  exact ⟨h.2.1, h.2.2.1⟩

/-- C9: each cache-wrapped gateway mutation resolves with undefined when its
remote call rejects, so the on-success invalidation of its declared query
keys runs even though the remote operation failed. -/
theorem mutations_invalidate_on_remote_failure (env : Env)
    (postId userId recordId : String) (arr : List String)
    (np : INewPost) (up : IUpdatePost)
    (h1 : env.postDocUpdate = .thrown) (h2 : env.saveDocCreate = .thrown)
    (h3 : env.saveDocDelete = .thrown) (h4 : env.fileCreate = .thrown) :
    (likePost env postId arr).1 = .ok none ∧
    useLikePostRun env postId arr =
      [.getPostById none, .getRecentPosts, .getPosts, .getCurrentUser] ∧
    (savePost env postId userId).1 = .ok none ∧
    useSavePostRun env postId userId = useSavePostKeys ∧
    (deleteSavedPost env recordId).1 = .ok none ∧
    useDeleteSavedPostRun env recordId = useDeleteSavedPostKeys ∧
    (createPost env np).1 = .ok none ∧
    useCreatePostRun env np = useCreatePostKeys ∧
    (updatePost env up).1 = .ok none ∧
    useUpdatePostRun env up = useUpdatePostKeys := by
  have hupd : (updatePost env up).1 = .ok none := by
    unfold updatePost
    split
    · simp [uploadFile, h4]
    · simp [h1]
  refine ⟨?_, ?_, ?_, ?_, ?_, ?_, ?_, ?_, hupd, ?_⟩
  · simp [likePost, h1]
  · simp [useLikePostRun, runMutation, likePost, h1, useLikePostKeys]
  · simp [savePost, h2]
  · simp [useSavePostRun, runMutation, savePost, h2]
  · simp [deleteSavedPost, h3]
  · simp [useDeleteSavedPostRun, runMutation, deleteSavedPost, h3]
  · simp [createPost, uploadFile, h4]
  · simp [useCreatePostRun, runMutation, createPost, uploadFile, h4]
  · simp [useUpdatePostRun, runMutation, hupd]

/-- C9 witness: the invalidations fired by a like whose remote call rejected. -/
theorem mutations_invalidate_on_remote_failure_witness :
    useLikePostRun envAllThrown "p1" [] =
      [.getPostById none, .getRecentPosts, .getPosts, .getCurrentUser] := by
  have h := mutations_invalidate_on_remote_failure envAllThrown "p1" "u1" "r1" []
    samplePost sampleUpdate rfl rfl rfl rfl
  exact h.2.1

/-- C10: a supplied limit of 0 is falsy, so getUsers with limit 0 builds the
same query list as getUsers without a limit — no limit clause at all rather
than a zero-user page — and every built query list starts with the
descending creation-time ordering. -/
theorem getUsers_zero_limit (env : Env) :
    getUsersQueries (some 0) = getUsersQueries none ∧
    getUsers env (some 0) = getUsers env none ∧
    (∀ lim, (getUsersQueries lim).head? = some .orderDescCreatedAt) ∧
    (∀ n, UserQuery.limit n ∉ getUsersQueries (some 0)) := by
  refine ⟨rfl, rfl, fun lim => rfl, fun n => ?_⟩
  simp [getUsersQueries]
